import Mathlib

/-!
Verification of the core logic of `backend/server.py` (ParaInvestigate API):

* the structured-extraction parse inside `generate_ai_report`
  (marker scanning, per-field processing, and the fallback report built in
  the surrounding exception handler), and
* the geospatial proximity query: `haversine_distance` and the
  filter/annotate/sort loop of `get_nearby_sightings`.

The parser works on Python `str` values; it is embedded here over `List Char`
(Python's single-char operations), with `String` wrappers at field boundaries.
Whitespace is modelled as the six ASCII whitespace characters stripped by
Python's `str.strip`/`str.split` (the exotic Unicode whitespace accepted by
CPython is not exercised by any statement below).  Python `float`/`int`
literal conversion is modelled exactly over finite decimal literals with an
optional exponent; CPython additionally accepts `inf`/`nan` and digit
underscores, which no statement below touches.  Python floats themselves are
idealised as exact numbers (`ℚ` in the parser, `ℝ` in the geometry), the
usual idealisation for specification-level statements about float formulas.
-/

namespace Server

/-- The six ASCII whitespace characters stripped by Python `str.strip()` and
split on by `str.split()` with no argument. -/
def pyws : Char → Bool := fun c =>
  c = ' ' ∨ c = '\t' ∨ c = '\n' ∨ c = '\r' ∨ c = '\x0b' ∨ c = '\x0c'

/-- Python `s.lstrip()`. -/
def lstrip (l : List Char) : List Char := l.dropWhile pyws

/-- Python `s.rstrip()`. -/
def rstrip (l : List Char) : List Char := (lstrip l.reverse).reverse

/-- Python `s.strip()`. -/
def pystrip (l : List Char) : List Char := rstrip (lstrip l)

/-- Python `s.startswith(pat)`: `listStartsWith pat s`. -/
def listStartsWith : List Char → List Char → Bool
  | [], _ => true
  | _ :: _, [] => false
  | p :: ps, c :: cs => p = c && listStartsWith ps cs

/-- Helper for `splitOnChar`; `acc` is the current chunk, reversed. -/
def splitOnCharAux (sep : Char) : List Char → List Char → List (List Char)
  | [], acc => [acc.reverse]
  | c :: rest, acc =>
    if c = sep then acc.reverse :: splitOnCharAux sep rest []
    else splitOnCharAux sep rest (c :: acc)

/-- Python `s.split(sep)` for a single-character separator: splits at every
occurrence and keeps empty chunks (`"".split(sep) == ['']`). -/
def splitOnChar (sep : Char) (l : List Char) : List (List Char) :=
  splitOnCharAux sep l []

/-- Helper for `splitWs`. -/
def splitWsAux : List Char → List Char → List (List Char)
  | [], acc => if acc = [] then [] else [acc.reverse]
  | c :: rest, acc =>
    if pyws c then
      if acc = [] then splitWsAux rest [] else acc.reverse :: splitWsAux rest []
    else splitWsAux rest (c :: acc)

/-- Python `s.split()` with no argument: split on whitespace runs, dropping
empty chunks (`"".split() == []`). -/
def splitWs (l : List Char) : List (List Char) := splitWsAux l []

/-- Numeric value of a string of decimal digits. -/
def digitsVal (l : List Char) : ℕ := l.foldl (fun a c => 10 * a + (c.toNat - 48)) 0

/-- All characters are ASCII decimal digits. -/
def allDigits (l : List Char) : Bool := l.all (·.isDigit)

/-- Strips one optional leading sign; returns `(positive, rest)`. -/
def parseSign : List Char → Bool × List Char
  | '+' :: rest => (true, rest)
  | '-' :: rest => (false, rest)
  | l => (true, l)

/-- Python `int(s)` on base-10 literals: optional surrounding whitespace,
optional sign, then a non-empty digit string; `none` models the
`ValueError` raised on anything else. -/
def pyInt (l : List Char) : Option ℤ :=
  let s := pystrip l
  let pr := parseSign s
  if pr.2 ≠ [] ∧ allDigits pr.2 then
    some (if pr.1 then (digitsVal pr.2 : ℤ) else -(digitsVal pr.2 : ℤ))
  else none

/-- Splits at the first `e`/`E`, returning the mantissa characters and the
exponent characters when an `e`/`E` is present. -/
def splitExp : List Char → List Char × Option (List Char)
  | [] => ([], none)
  | c :: rest =>
    if c = 'e' ∨ c = 'E' then ([], some rest)
    else
      let p := splitExp rest
      (c :: p.1, p.2)

/-- Parses an unsigned decimal mantissa (`d+`, `d+.d*`, `.d+`, `d*.d+`);
returns the scaled integer value and the number of fractional digits. -/
def parseMantissa (l : List Char) : Option (ℕ × ℕ) :=
  match splitOnChar '.' l with
  | [ip] => if ip ≠ [] ∧ allDigits ip then some (digitsVal ip, 0) else none
  | [ip, fp] =>
    if (ip ≠ [] ∨ fp ≠ []) ∧ allDigits ip ∧ allDigits fp then
      some (digitsVal ip * 10 ^ fp.length + digitsVal fp, fp.length)
    else none
  | _ => none

/-- Parses the signed digit string after `e`/`E`. -/
def parseExpPart (l : List Char) : Option ℤ :=
  let pr := parseSign l
  if pr.2 ≠ [] ∧ allDigits pr.2 then
    some (if pr.1 then (digitsVal pr.2 : ℤ) else -(digitsVal pr.2 : ℤ))
  else none

/-- Python `float(s)` on finite decimal literals: optional surrounding
whitespace, optional sign, decimal mantissa, optional `e`/`E` exponent;
`none` models the `ValueError` raised on anything else.  The value is exact
(`ℚ`), idealising the binary64 rounding of CPython. -/
def pyFloat (l : List Char) : Option ℚ :=
  let s := pystrip l
  let pr := parseSign s
  let me := splitExp pr.2
  match parseMantissa me.1, me.2 with
  | some nf, none =>
    some (mkRat (if pr.1 then (nf.1 : ℤ) else -(nf.1 : ℤ)) (10 ^ nf.2))
  | some nf, some echars =>
    match parseExpPart echars with
    | some e =>
      some (mkRat ((if pr.1 then (nf.1 : ℤ) else -(nf.1 : ℤ)) * 10 ^ e.toNat)
        (10 ^ nf.2 * 10 ^ (-e).toNat))
    | none => none
  | none, _ => none

/-- The `Location` pydantic model of `server.py` (it declares no range
constraints, so construction never fails).  Coordinates are idealised as
exact rationals. -/
structure Location where
  latitude : ℚ
  longitude : ℚ
  address : Option String
deriving DecidableEq

/-- The parse-relevant fields of the `AIGeneratedReport` pydantic model
(the meta fields `id`/`generated_at`/`generator_user_id`, the constant
`input_type`/`suggested_images`/`audio_transcriptions`, and persistence are
outside the parse and omitted). -/
structure AIGeneratedReport where
  raw_input : String
  title : String
  summary : String
  detailed_description : String
  category : String
  haunting_type : Option String
  locations : List Location
  dates_mentioned : List String
  witnesses_mentioned : ℤ
  entities_described : List String
  credibility_assessment : String
  severity_assessment : Option String
  key_evidence : List String
  investigation_recommendations : List String
  similar_cases : List String
deriving DecidableEq

/-- The `parsed` dictionary of `generate_ai_report`, restricted to the 14
keys the scanning loop can ever write. -/
structure ParsedFields where
  title : Option String := none
  category : Option String := none
  haunting_type : Option String := none
  summary : Option String := none
  detailed_description : Option String := none
  locations : Option String := none
  dates : Option String := none
  witnesses : Option String := none
  entities : Option String := none
  credibility : Option String := none
  severity : Option String := none
  key_evidence : Option String := none
  recommendations : Option String := none
  similar_cases : Option String := none
deriving DecidableEq

/-- `line[len(key):].strip()`: the marker value written into the `parsed`
dictionary when `line.startswith(key)`. -/
def mval (key : String) (line : List Char) : Option String :=
  some (String.mk (pystrip (line.drop key.data.length)))

/-- One iteration of the scanning loop of `generate_ai_report`: the marker
markers are tested in the fixed source order, the first match wins, and the
value is the rest of the line, stripped; a later line with the same marker
overwrites (the dictionary write is last-write-wins). -/
def scanLine (p : ParsedFields) (line : List Char) : ParsedFields :=
  if listStartsWith "TITLE:".data line then { p with title := mval "TITLE:" line }
  else if listStartsWith "CATEGORY:".data line then { p with category := mval "CATEGORY:" line }
  else if listStartsWith "HAUNTING_TYPE:".data line then { p with haunting_type := mval "HAUNTING_TYPE:" line }
  else if listStartsWith "SUMMARY:".data line then { p with summary := mval "SUMMARY:" line }
  else if listStartsWith "DETAILED_DESCRIPTION:".data line then { p with detailed_description := mval "DETAILED_DESCRIPTION:" line }
  else if listStartsWith "LOCATIONS:".data line then { p with locations := mval "LOCATIONS:" line }
  else if listStartsWith "DATES:".data line then { p with dates := mval "DATES:" line }
  else if listStartsWith "WITNESSES:".data line then { p with witnesses := mval "WITNESSES:" line }
  else if listStartsWith "ENTITIES:".data line then { p with entities := mval "ENTITIES:" line }
  else if listStartsWith "CREDIBILITY:".data line then { p with credibility := mval "CREDIBILITY:" line }
  else if listStartsWith "SEVERITY:".data line then { p with severity := mval "SEVERITY:" line }
  else if listStartsWith "KEY_EVIDENCE:".data line then { p with key_evidence := mval "KEY_EVIDENCE:" line }
  else if listStartsWith "RECOMMENDATIONS:".data line then { p with recommendations := mval "RECOMMENDATIONS:" line }
  else if listStartsWith "SIMILAR_CASES:".data line then { p with similar_cases := mval "SIMILAR_CASES:" line }
  else p

/-- `result.strip().split('\n')` followed by the scanning loop. -/
def scanParsed (modelOutput : String) : ParsedFields :=
  (splitOnChar '\n' (pystrip modelOutput.data)).foldl scanLine {}

/-- List comprehension used for `DATES` and `ENTITIES` (and the retention
test of `LOCATIONS` segments): split on the pipe, strip each segment, drop
segments that are empty or equal to the literal sentinel. -/
def multiNA (v : List Char) : List String :=
  (splitOnChar '|' v).filterMap (fun seg =>
    let s := pystrip seg
    if s ≠ [] ∧ s ≠ "N/A".data then some (String.mk s) else none)

/-- List comprehension used for `KEY_EVIDENCE`, `RECOMMENDATIONS` and
`SIMILAR_CASES`: split on the pipe, strip each segment, drop only segments
that are empty after stripping (note: the sentinel is kept here). -/
def multiKeep (v : List Char) : List String :=
  (splitOnChar '|' v).filterMap (fun seg =>
    let s := pystrip seg
    if s ≠ [] then some (String.mk s) else none)

/-- The body of the `LOCATIONS` loop of `generate_ai_report` for one pipe
segment: strip; skip empty or `N/A`; if the segment has at least two
comma-fields, convert the first two with `float` and build a `Location`
whose address is the stripped comma-join of the remaining fields (absent
when there are none); on `float` failure the bare `except` builds the fixed
default location with the whole stripped segment as address.  A segment
with fewer than two comma-fields produces nothing. -/
def parseLocSegment (seg : List Char) : Option Location :=
  let s := pystrip seg
  if s ≠ [] ∧ s ≠ "N/A".data then
    let parts := splitOnChar ',' s
    if 2 ≤ parts.length then
      match pyFloat (pystrip (parts.getD 0 [])), pyFloat (pystrip (parts.getD 1 [])) with
      | some lat, some lng =>
        some { latitude := lat, longitude := lng,
               address := if 2 < parts.length then
                   some (String.mk (pystrip (List.intercalate [','] (parts.drop 2))))
                 else none }
      | _, _ =>
        some { latitude := mkRat 515074 10000, longitude := mkRat (-1278) 10000,
               address := some (String.mk s) }
    else none
  else none

/-- The `locations` list of `generate_ai_report`: guarded by the truthiness
test `if parsed.get('locations'):` (absent or empty value gives no
locations), then one `parseLocSegment` per pipe segment. -/
def locationsOf (pv : Option String) : List Location :=
  match pv with
  | none => []
  | some v => if v = "" then [] else (splitOnChar '|' v.data).filterMap parseLocSegment

/-- The `witnesses_mentioned` expression of `generate_ai_report`:
`int(parsed.get('witnesses', '1').split()[0]) if parsed.get('witnesses', '').split() else 1`.
`none` models the `ValueError` escaping from `int` (which aborts the whole
report construction into the outer exception handler). -/
def witnessesResult (pw : Option String) : Option ℤ :=
  match pw with
  | none => some 1
  | some w =>
    match splitWs w.data with
    | [] => some 1
    | t :: _ => pyInt t

/-- The fully-defaulted report built by the outer `except` handler of
`generate_ai_report`. -/
def fallbackReport (rawText : String) : AIGeneratedReport where
  raw_input := rawText
  title := "Report from Submitted Information"
  summary := "AI analysis unavailable. Please review the raw input below."
  detailed_description := rawText
  category := "Other"
  haunting_type := none
  locations := []
  dates_mentioned := []
  witnesses_mentioned := 1
  entities_described := []
  credibility_assessment := "Unable to assess - manual review required"
  severity_assessment := none
  key_evidence := []
  investigation_recommendations :=
    ["Review the submitted information manually", "Contact witnesses if possible",
     "Document any additional details"]
  similar_cases := []

/-- The extraction parse of `generate_ai_report`: scans the model output,
assembles the report record, and — when the `WITNESSES` integer conversion
raises — degrades to the fallback report of the outer handler.  `rawText`
is `request.raw_text`, which flows into `raw_input` and into the
`detailed_description` default. -/
def parseExtraction (modelOutput rawText : String) : AIGeneratedReport :=
  let p := scanParsed modelOutput
  match witnessesResult p.witnesses with
  | none => fallbackReport rawText
  | some w =>
    { raw_input := rawText
      title := p.title.getD "Untitled Report"
      summary := p.summary.getD ""
      detailed_description := p.detailed_description.getD rawText
      category := p.category.getD "Other"
      haunting_type := if p.haunting_type = some "N/A" then none else p.haunting_type
      locations := locationsOf p.locations
      dates_mentioned := multiNA (p.dates.getD "").data
      witnesses_mentioned := w
      entities_described := multiNA (p.entities.getD "").data
      credibility_assessment := p.credibility.getD "Medium - Requires investigation"
      severity_assessment := if p.severity = some "N/A" then none else p.severity
      key_evidence := multiKeep (p.key_evidence.getD "").data
      investigation_recommendations := multiKeep (p.recommendations.getD "").data
      similar_cases := multiKeep (p.similar_cases.getD "").data }

example : pystrip "  ab c \n".data = "ab c".data := by decide
example : splitOnChar ',' "a,b,,c".data = [['a'], ['b'], [], ['c']] := by decide
example : pyInt " -3 ".data = some (-3) := by decide
example : pyInt "abc".data = none := by decide
example : pyFloat "51.5074".data = some (mkRat 515074 10000) := by decide
example : pyFloat "not-a-number".data = none := by decide
example : pyFloat "-1.5e2".data = some (mkRat (-150) 1) := by decide
example : (parseExtraction "TITLE: Ghost in the attic\nWITNESSES: 2 people" "x").title =
    "Ghost in the attic" := by decide
example : (parseExtraction "TITLE: Ghost in the attic\nWITNESSES: 2 people" "x").witnesses_mentioned
    = 2 := by decide
example : (parseExtraction "LOCATIONS: 51.5,-0.12,London | N/A" "x").locations =
    [{ latitude := mkRat 515 10, longitude := mkRat (-12) 100, address := some "London" }] := by
  decide
example : (parseExtraction "" "x").category = "Other" ∧
    (parseExtraction "" "x").witnesses_mentioned = 1 ∧
    (parseExtraction "" "x").locations = [] := by decide

/-- `math.radians(x)`. -/
noncomputable def radians (x : ℝ) : ℝ := x * Real.pi / 180

/-- `math.atan2(y, x)` on (non-NaN) reals, following the C99 specification
used by CPython. -/
noncomputable def atan2 (y x : ℝ) : ℝ :=
  if 0 < x then Real.arctan (y / x)
  else if x < 0 ∧ 0 ≤ y then Real.arctan (y / x) + Real.pi
  else if x < 0 ∧ y < 0 then Real.arctan (y / x) - Real.pi
  else if x = 0 ∧ 0 < y then Real.pi / 2
  else if x = 0 ∧ y < 0 then -(Real.pi / 2)
  else 0

/-- `haversine_distance` of `server.py`, verbatim (floats idealised as `ℝ`). -/
noncomputable def haversine_distance (lat1 lon1 lat2 lon2 : ℝ) : ℝ :=
  let R : ℝ := 6371
  let lat1_rad := radians lat1
  let lat2_rad := radians lat2
  let delta_lat := radians (lat2 - lat1)
  let delta_lon := radians (lon2 - lon1)
  let a := Real.sin (delta_lat / 2) ^ 2 +
    Real.cos lat1_rad * Real.cos lat2_rad * Real.sin (delta_lon / 2) ^ 2
  R * 2 * atan2 (Real.sqrt a) (Real.sqrt (1 - a))

/-- Reference haversine definition written from the spec text (section 4.1):
degrees converted to radians, `a = sin²(Δlat/2) + cos(lat1)·cos(lat2)·sin²(Δlon/2)`
with the deltas taken between the converted radian values, and distance
`2·R·atan2(√a, √(1−a))` with `R = 6371`. -/
noncomputable def haversineRef (lat1 lon1 lat2 lon2 : ℝ) : ℝ :=
  let R : ℝ := 6371
  let p1 := radians lat1
  let p2 := radians lat2
  let dLat := p2 - p1
  let dLon := radians lon2 - radians lon1
  let a := Real.sin (dLat / 2) ^ 2 + Real.cos p1 * Real.cos p2 * Real.sin (dLon / 2) ^ 2
  2 * R * atan2 (Real.sqrt a) (Real.sqrt (1 - a))

/-- Python `round(x)` to an integer: round-half-to-even (banker's rounding);
away from exact halves it is ordinary rounding to nearest. -/
noncomputable def pyRound (x : ℝ) : ℤ :=
  if Int.fract x = 1 / 2 then 2 * round (x / 2) else round x

/-- Python `round(x, 2)`: the value rounded to two decimal places (the
binary64 representation artefacts of CPython are idealised away). -/
noncomputable def round2 (x : ℝ) : ℝ := (pyRound (x * 100) : ℝ) / 100

/-- A stored sighting as consumed by `get_nearby_sightings`: an identifier
plus the embedded coordinates. -/
structure Sighting where
  id : ℕ
  latitude : ℝ
  longitude : ℝ

/-- The comparator realising `nearby.sort(key=lambda x: x['distance_km'])`:
sort by the attached rounded distance. -/
noncomputable def pairLE (a b : Sighting × ℝ) : Bool := decide (a.2 ≤ b.2)

/-- The filter/annotate loop of `get_nearby_sightings`: keep candidates with
`distance <= radius_km` (inclusive) in encounter order, attaching
`distance_km = round(distance, 2)`. -/
noncomputable def nearbyAnnotated (cs : List Sighting) (qlat qlon radius : ℝ) :
    List (Sighting × ℝ) :=
  (cs.filter (fun s => decide (haversine_distance qlat qlon s.latitude s.longitude ≤ radius))).map
    (fun s => (s, round2 (haversine_distance qlat qlon s.latitude s.longitude)))

/-- `get_nearby_sightings` of `server.py` with the candidate list supplied by
the caller (the database fetch is an external collaborator): filter and
annotate, then stable-sort ascending by the attached `distance_km`
(Python's `list.sort` is a stable sort, embedded as `List.mergeSort`). -/
noncomputable def get_nearby_sightings (cs : List Sighting) (qlat qlon radius : ℝ) :
    List (Sighting × ℝ) :=
  (nearbyAnnotated cs qlat qlon radius).mergeSort pairLE

/-- `pairLE` is transitive. -/
theorem pairLE_trans (a b c : Sighting × ℝ) (hab : pairLE a b) (hbc : pairLE b c) :
    pairLE a c := by
  simp only [pairLE, decide_eq_true_eq] at *
  exact le_trans hab hbc

/-- `pairLE` is total. -/
theorem pairLE_total (a b : Sighting × ℝ) : pairLE a b || pairLE b a := by
  simp only [pairLE]
  rcases le_total a.2 b.2 with h | h <;> simp [h]

/-- Membership characterisation of the proximity query output: a pair is in
the output exactly when its candidate is in the input, its haversine
distance from the query point is within the radius (inclusive), and the
attached value is the rounded distance. -/
theorem mem_get_nearby (cs : List Sighting) (qlat qlon r : ℝ) (c : Sighting) (d : ℝ) :
    (c, d) ∈ get_nearby_sightings cs qlat qlon r ↔
      c ∈ cs ∧ haversine_distance qlat qlon c.latitude c.longitude ≤ r ∧
        d = round2 (haversine_distance qlat qlon c.latitude c.longitude) := by
  unfold get_nearby_sightings nearbyAnnotated
  rw [List.mem_mergeSort, List.mem_map]
  constructor
  · rintro ⟨s, hs, heq⟩
    rw [List.mem_filter] at hs
    injection heq with h1 h2
    subst h1
    subst h2
    exact ⟨hs.1, of_decide_eq_true hs.2, rfl⟩
  · rintro ⟨hc, hle, hd⟩
    refine ⟨c, ?_, ?_⟩
    · rw [List.mem_filter]
      exact ⟨hc, decide_eq_true hle⟩
    · rw [hd]

/-- The proximity query output is pairwise non-decreasing in the attached
rounded distance. -/
theorem get_nearby_pairwise (cs : List Sighting) (qlat qlon r : ℝ) :
    (get_nearby_sightings cs qlat qlon r).Pairwise (fun a b => a.2 ≤ b.2) := by
  have h := @List.sorted_mergeSort (Sighting × ℝ) pairLE pairLE_trans pairLE_total
    (nearbyAnnotated cs qlat qlon r)
  exact h.imp (fun hab => by simpa [pairLE] using hab)

/-- Stability of the proximity query: two annotated entries with equal
rounded distance keep the encounter order they have in the filtered list. -/
theorem get_nearby_stable (cs : List Sighting) (qlat qlon r : ℝ) (x y : Sighting × ℝ)
    (hxy : x.2 = y.2) (hsub : List.Sublist [x, y] (nearbyAnnotated cs qlat qlon r)) :
    List.Sublist [x, y] (get_nearby_sightings cs qlat qlon r) := by
  apply List.pair_sublist_mergeSort pairLE_trans pairLE_total
  · simp [pairLE, hxy]
  · exact hsub

/-- `atan2(0, 1) = 0`. -/
theorem atan2_zero_one : atan2 0 1 = 0 := by
  unfold atan2
  rw [if_pos (by norm_num : (0 : ℝ) < 1)]
  norm_num [Real.arctan_zero]

/-- The distance from a point to itself is exactly zero. -/
theorem haversine_self (lat lon : ℝ) : haversine_distance lat lon lat lon = 0 := by
  simp only [haversine_distance, radians]
  norm_num [Real.sin_zero, Real.sqrt_zero, Real.sqrt_one, atan2_zero_one]

/-- Closed form on the equator: for `0 ≤ L ≤ 1` degrees of longitude the
haversine distance from the origin is the arc `6371 · L · π / 180`. -/
theorem haversine_equator (L : ℝ) (h0 : 0 ≤ L) (h1 : L ≤ 1) :
    haversine_distance 0 0 0 L = 6371 * (L * Real.pi / 180) := by
  have hpi := Real.pi_pos
  have ht0 : 0 ≤ L * Real.pi / 360 := by positivity
  have ht2 : L * Real.pi / 360 < Real.pi / 2 := by nlinarith
  have htpi : L * Real.pi / 360 ≤ Real.pi := by nlinarith
  have hsin : 0 ≤ Real.sin (L * Real.pi / 360) :=
    Real.sin_nonneg_of_nonneg_of_le_pi ht0 htpi
  have hcos : 0 < Real.cos (L * Real.pi / 360) :=
    Real.cos_pos_of_mem_Ioo ⟨by nlinarith, ht2⟩
  have hcos2 : 1 - Real.sin (L * Real.pi / 360) ^ 2 = Real.cos (L * Real.pi / 360) ^ 2 := by
    have h := Real.sin_sq_add_cos_sq (L * Real.pi / 360)
    linarith
  simp only [haversine_distance, radians]
  have e1 : (0 - 0 : ℝ) * Real.pi / 180 / 2 = 0 := by ring
  have e2 : (L - 0) * Real.pi / 180 / 2 = L * Real.pi / 360 := by ring
  have e3 : (0 : ℝ) * Real.pi / 180 = 0 := by ring
  rw [e1, e2, e3]
  rw [Real.sin_zero, Real.cos_zero]
  have e4 : (0 : ℝ) ^ 2 + 1 * 1 * Real.sin (L * Real.pi / 360) ^ 2 =
      Real.sin (L * Real.pi / 360) ^ 2 := by ring
  rw [e4, hcos2, Real.sqrt_sq hsin, Real.sqrt_sq hcos.le]
  unfold atan2
  rw [if_pos hcos, ← Real.tan_eq_sin_div_cos,
    Real.arctan_tan (by linarith) ht2]
  ring

/-- `round(0, 2) = 0`. -/
theorem round2_zero : round2 0 = 0 := by
  unfold round2 pyRound
  rw [if_neg (by norm_num [Int.fract_zero])]
  norm_num

/-- `round(x, 2) = 0` when `100·x` lies in `[0, 1/2)`. -/
theorem round2_of_small (x : ℝ) (h0 : 0 ≤ x * 100) (h1 : x * 100 < 1 / 2) :
    round2 x = 0 := by
  unfold round2 pyRound
  have hf : Int.fract (x * 100) = x * 100 := Int.fract_eq_self.2 ⟨h0, by linarith⟩
  rw [if_neg (by rw [hf]; linarith)]
  rw [round_eq]
  have : ⌊x * 100 + 1 / 2⌋ = 0 := by
    rw [Int.floor_eq_iff]
    constructor <;> [skip; skip] <;> push_cast <;> linarith
  rw [this]
  norm_num

/-- `round(x, 2) = 0.01` when `100·x` lies in `(1/2, 1)`. -/
theorem round2_of_mid (x : ℝ) (h0 : 1 / 2 < x * 100) (h1 : x * 100 < 1) :
    round2 x = 1 / 100 := by
  unfold round2 pyRound
  have hf : Int.fract (x * 100) = x * 100 := Int.fract_eq_self.2 ⟨by linarith, h1⟩
  rw [if_neg (by rw [hf]; linarith)]
  rw [round_eq]
  have : ⌊x * 100 + 1 / 2⌋ = 1 := by
    rw [Int.floor_eq_iff]
    constructor <;> [skip; skip] <;> push_cast <;> linarith
  rw [this]
  norm_num

/-- Evaluation: the filter/annotate loop on the empty candidate list. -/
theorem nearbyAnnotated_nil (qlat qlon r : ℝ) : nearbyAnnotated [] qlat qlon r = [] := by
  simp [nearbyAnnotated]

/-- Evaluation: the filter/annotate loop keeps a candidate within range. -/
theorem nearbyAnnotated_cons_pos (c : Sighting) (cs : List Sighting) (qlat qlon r : ℝ)
    (h : haversine_distance qlat qlon c.latitude c.longitude ≤ r) :
    nearbyAnnotated (c :: cs) qlat qlon r =
      (c, round2 (haversine_distance qlat qlon c.latitude c.longitude)) ::
        nearbyAnnotated cs qlat qlon r := by
  simp [nearbyAnnotated, List.filter_cons, decide_eq_true h]

/-- Evaluation: `mergeSort` leaves an already-sorted two-element list as is. -/
theorem mergeSort_pair_sorted (x y : Sighting × ℝ) (h : x.2 ≤ y.2) :
    List.mergeSort [x, y] pairLE = [x, y] :=
  List.mergeSort_of_sorted (by simp [pairLE, h])

/-- Bridge: a wrapped character list is the empty string exactly when the
list is empty. -/
theorem mk_eq_empty (l : List Char) : String.mk l = "" ↔ l = [] := by
  rw [String.ext_iff]

/-- Bridge: a wrapped character list is the sentinel string exactly when the
list is the sentinel's character list. -/
theorem mk_eq_na (l : List Char) : String.mk l = "N/A" ↔ l = "N/A".data := by
  rw [String.ext_iff]

/-- The `WITNESSES` value of the scanned output parses (via the leading
whitespace token) to a negative integer.  When this holds — and only then —
the report's `witnesses_mentioned` is negative. -/
def negWitnessToken (modelOutput : String) : Prop :=
  ∃ n, witnessesResult (scanParsed modelOutput).witnesses = some n ∧ n < 0

/-- C1 (amended).  The parse is total by construction (`parseExtraction` is
a total function into a record whose sequence fields always exist), but
`witnessCount >= 0` does not hold for every input: the report's
`witnesses_mentioned` is non-negative exactly when the `WITNESSES` value's
leading token does not convert to a negative integer. -/
theorem claim_C1 (out raw : String) :
    0 ≤ (parseExtraction out raw).witnesses_mentioned ↔ ¬ negWitnessToken out := by
  unfold parseExtraction negWitnessToken
  cases h : witnessesResult (scanParsed out).witnesses with
  | none => simp [h, fallbackReport]
  | some w =>
    simp only [h]
    simp only [Option.some.injEq]
    constructor
    · rintro hw ⟨n, hn, hneg⟩
      omega
    · intro hn
      by_contra hw
      exact hn ⟨w, rfl, by omega⟩

/-- C1 counterexample: `WITNESSES: -3` yields a negative `witnessCount`,
refuting the claim's `witnessCount >= 0` for arbitrary input. -/
theorem counterexample_C1 : (parseExtraction "WITNESSES: -3" "").witnesses_mentioned < 0 := by
  decide

/-- C2 (amended).  When the `WITNESSES` marker's leading token fails integer
conversion, the failure does not degrade only that field: the `ValueError`
escapes to the outer handler and the whole parse returns the fully-defaulted
fallback report (so `witnessCount` is indeed 1, but every other field is
reset to the fallback defaults rather than parsed by its own rule). -/
theorem claim_C2 (out raw : String)
    (h : witnessesResult (scanParsed out).witnesses = none) :
    parseExtraction out raw = fallbackReport raw := by
  unfold parseExtraction
  simp only [h]

/-- C2 witness: `WITNESSES: abc` has an unconvertible leading token and the
parse collapses to the fallback report. -/
theorem witness_C2 :
    witnessesResult (scanParsed "WITNESSES: abc").witnesses = none ∧
      parseExtraction "WITNESSES: abc" "r" = fallbackReport "r" :=
  ⟨by decide, claim_C2 "WITNESSES: abc" "r" (by decide)⟩

/-- C2 counterexample: with `TITLE: Ghost` present and an unconvertible
`WITNESSES` value, the title is reset to the fallback constant instead of
being parsed to `Ghost` — the failure is not confined to the witness
field. -/
theorem counterexample_C2 :
    (parseExtraction "TITLE: Ghost\nWITNESSES: abc" "raw").witnesses_mentioned = 1 ∧
      (parseExtraction "TITLE: Ghost\nWITNESSES: abc" "raw").title =
        "Report from Submitted Information" := by
  decide

/-- Multi-value processing as the spec (claim C3) describes it for `DATES`
and `ENTITIES` (and the `LOCATIONS` retention test): split on the pipe,
trim every segment, drop segments empty after trimming or equal to the
sentinel. -/
def specDropNA (v : List Char) : List String :=
  ((splitOnChar '|' v).map (fun seg => String.mk (pystrip seg))).filter
    (fun s => !(s == "" || s == "N/A"))

/-- Multi-value processing as `server.py` implements it for `KEY_EVIDENCE`,
`RECOMMENDATIONS` and `SIMILAR_CASES`: split on the pipe, trim every
segment, drop only segments empty after trimming — the sentinel is kept. -/
def specDropEmpty (v : List Char) : List String :=
  ((splitOnChar '|' v).map (fun seg => String.mk (pystrip seg))).filter
    (fun s => !(s == ""))

/-- C3 (amended).  For every raw field value: the `DATES`/`ENTITIES`
processing (`multiNA`, also used to retain `LOCATIONS` segments) drops
trimmed-empty and sentinel segments, while the `KEY_EVIDENCE` /
`RECOMMENDATIONS` / `SIMILAR_CASES` processing (`multiKeep`) drops only
trimmed-empty segments and keeps `N/A` literally. -/
theorem claim_C3 (v : List Char) :
    multiNA v = specDropNA v ∧ multiKeep v = specDropEmpty v := by
  unfold multiNA specDropNA multiKeep specDropEmpty
  constructor
  · induction splitOnChar '|' v with
    | nil => rfl
    | cons a l ih =>
      rw [List.filterMap_cons, List.map_cons, List.filter_cons, ih]
      by_cases h1 : pystrip a = []
      · simp [h1, mk_eq_empty]
      · by_cases h2 : pystrip a = "N/A".data
        · simp [h1, h2, mk_eq_empty, mk_eq_na]
        · simp [h1, h2, mk_eq_empty, mk_eq_na]
  · induction splitOnChar '|' v with
    | nil => rfl
    | cons a l ih =>
      rw [List.filterMap_cons, List.map_cons, List.filter_cons, ih]
      by_cases h1 : pystrip a = []
      · simp [h1, mk_eq_empty]
      · simp [h1, mk_eq_empty]

/-- C3 counterexample: a `KEY_EVIDENCE` segment equal to the sentinel `N/A`
is retained in the parse result, refuting the claim that all six multi-value
fields drop it. -/
theorem counterexample_C3 : (parseExtraction "KEY_EVIDENCE: N/A" "").key_evidence = ["N/A"] := by
  decide

/-- C4 (amended).  The deterministic part of the parse depends only on the
model-output string for every field except `raw_input` (always the request's
raw text) and `detailed_description` (defaults to the raw text when its
marker is absent, and is the raw text in the fallback report): those two can
differ between invocations with equal model output but different raw text. -/
theorem claim_C4 (out raw1 raw2 : String) :
    (parseExtraction out raw1).title = (parseExtraction out raw2).title ∧
    (parseExtraction out raw1).summary = (parseExtraction out raw2).summary ∧
    (parseExtraction out raw1).category = (parseExtraction out raw2).category ∧
    (parseExtraction out raw1).haunting_type = (parseExtraction out raw2).haunting_type ∧
    (parseExtraction out raw1).locations = (parseExtraction out raw2).locations ∧
    (parseExtraction out raw1).dates_mentioned = (parseExtraction out raw2).dates_mentioned ∧
    (parseExtraction out raw1).witnesses_mentioned = (parseExtraction out raw2).witnesses_mentioned ∧
    (parseExtraction out raw1).entities_described = (parseExtraction out raw2).entities_described ∧
    (parseExtraction out raw1).credibility_assessment
      = (parseExtraction out raw2).credibility_assessment ∧
    (parseExtraction out raw1).severity_assessment
      = (parseExtraction out raw2).severity_assessment ∧
    (parseExtraction out raw1).key_evidence = (parseExtraction out raw2).key_evidence ∧
    (parseExtraction out raw1).investigation_recommendations
      = (parseExtraction out raw2).investigation_recommendations ∧
    (parseExtraction out raw1).similar_cases = (parseExtraction out raw2).similar_cases := by
  unfold parseExtraction
  cases h : witnessesResult (scanParsed out).witnesses <;> simp [h, fallbackReport]

/-- C4 counterexample: the same model output with different accompanying raw
texts yields different records (`raw_input` and the `detailed_description`
default both take the raw text), refuting record equality as claimed. -/
theorem counterexample_C4 : parseExtraction "" "A" ≠ parseExtraction "" "B" := by decide

/-- Parsing of one retained `LOCATIONS` segment as claim C8 describes it,
amended: the address attached to successfully parsed coordinates is the
comma-join of the remaining comma-fields **trimmed of surrounding
whitespace** (absent when there are no remaining fields); on float failure
the default coordinate is used with the trimmed segment as address. -/
def locSegmentSpec (s : List Char) : Location :=
  let parts := splitOnChar ',' s
  match pyFloat (pystrip (parts.getD 0 [])), pyFloat (pystrip (parts.getD 1 [])) with
  | some lat, some lng =>
    { latitude := lat, longitude := lng,
      address := if 2 < parts.length then
          some (String.mk (pystrip (List.intercalate [','] (parts.drop 2))))
        else none }
  | _, _ =>
    { latitude := mkRat 515074 10000, longitude := mkRat (-1278) 10000,
      address := some (String.mk s) }

/-- C8 (amended).  Every retained `LOCATIONS` segment with at least two
comma-fields is parsed exactly as `locSegmentSpec` describes: first two
comma-fields through `float`; on success the address is the trimmed
comma-join of the remaining fields (or absent), on failure the fixed default
coordinate (51.5074, -0.1278) with the trimmed segment text as address. -/
theorem claim_C8 (seg : List Char) (h1 : pystrip seg ≠ []) (h2 : pystrip seg ≠ "N/A".data)
    (h3 : 2 ≤ (splitOnChar ',' (pystrip seg)).length) :
    parseLocSegment seg = some (locSegmentSpec (pystrip seg)) := by
  simp only [parseLocSegment, locSegmentSpec]
  rw [if_pos ⟨h1, h2⟩, if_pos h3]
  rcases pyFloat (pystrip ((splitOnChar ',' (pystrip seg)).getD 0 [])) with _ | lat <;>
    rcases pyFloat (pystrip ((splitOnChar ',' (pystrip seg)).getD 1 [])) with _ | lng <;> rfl

/-- C8 witness: the segment `1,2, a` is retained, has three comma-fields,
and is parsed as the amended claim states. -/
theorem witness_C8 :
    (pystrip "1,2, a".data ≠ [] ∧ pystrip "1,2, a".data ≠ "N/A".data ∧
      2 ≤ (splitOnChar ',' (pystrip "1,2, a".data)).length) ∧
    parseLocSegment "1,2, a".data = some (locSegmentSpec (pystrip "1,2, a".data)) :=
  ⟨⟨by decide, by decide, by decide⟩,
    claim_C8 "1,2, a".data (by decide) (by decide) (by decide)⟩

/-- C8 counterexample: for the segment `1,2, a` the code attaches the
**trimmed** join `a`, not the plain comma-join ` a` the claim states. -/
theorem counterexample_C8 :
    (parseExtraction "LOCATIONS: 1,2, a" "").locations =
      [{ latitude := 1, longitude := 2, address := some "a" }] ∧ (" a" : String) ≠ "a" := by
  decide

/-- C10 (confirmed).  A retained `LOCATIONS` segment with fewer than two
comma-fields (no comma at all) is silently dropped: it produces no location
record, neither a fallback-coordinate one nor a free-text-address one. -/
theorem claim_C10 (seg : List Char) (h1 : pystrip seg ≠ []) (h2 : pystrip seg ≠ "N/A".data)
    (h3 : (splitOnChar ',' (pystrip seg)).length < 2) :
    parseLocSegment seg = none := by
  unfold parseLocSegment
  rw [if_pos ⟨h1, h2⟩, if_neg (by omega)]

/-- C10 witness: the comma-less segment `Somewhere` is retained but yields
no location. -/
theorem witness_C10 :
    (pystrip "Somewhere".data ≠ [] ∧ pystrip "Somewhere".data ≠ "N/A".data ∧
      (splitOnChar ',' (pystrip "Somewhere".data)).length < 2) ∧
    parseLocSegment "Somewhere".data = none :=
  ⟨⟨by decide, by decide, by decide⟩,
    claim_C10 "Somewhere".data (by decide) (by decide) (by decide)⟩

/-- C5 (confirmed).  The source `haversine_distance` coincides with the
reference haversine formula of the spec (radian conversion, the `a` term,
`2·R·atan2(√a, √(1−a))`, `R = 6371`), and identical points are at distance
exactly `0.0`. -/
theorem claim_C5 :
    (∀ lat1 lon1 lat2 lon2 : ℝ,
        haversine_distance lat1 lon1 lat2 lon2 = haversineRef lat1 lon1 lat2 lon2) ∧
    (∀ lat lon : ℝ, haversine_distance lat lon lat lon = 0) := by
  constructor
  · intro lat1 lon1 lat2 lon2
    simp only [haversine_distance, haversineRef, radians]
    have e1 : (lat2 - lat1) * Real.pi / 180 / 2 =
        (lat2 * Real.pi / 180 - lat1 * Real.pi / 180) / 2 := by ring
    have e2 : (lon2 - lon1) * Real.pi / 180 / 2 =
        (lon2 * Real.pi / 180 - lon1 * Real.pi / 180) / 2 := by ring
    rw [e1, e2]
    ring
  · exact haversine_self

/-- C7 (confirmed).  With a non-negative radius, a candidate appears in the
output of the proximity query exactly when its haversine distance from the
origin is at most the radius (inclusive boundary). -/
theorem claim_C7 (cs : List Sighting) (qlat qlon r : ℝ) (h : 0 ≤ r) (c : Sighting) :
    (∃ d, (c, d) ∈ get_nearby_sightings cs qlat qlon r) ↔
      c ∈ cs ∧ haversine_distance qlat qlon c.latitude c.longitude ≤ r := by
  constructor
  · rintro ⟨d, hd⟩
    have hm := (mem_get_nearby cs qlat qlon r c d).1 hd
    exact ⟨hm.1, hm.2.1⟩
  · rintro ⟨hc, hle⟩
    exact ⟨_, (mem_get_nearby cs qlat qlon r c _).2 ⟨hc, hle, rfl⟩⟩

/-- C7 witness: a candidate at the query point with radius `0` sits exactly
on the (inclusive) boundary. -/
theorem witness_C7 :
    (0 : ℝ) ≤ 0 ∧
      ((∃ d, ((⟨0, 0, 0⟩ : Sighting), d) ∈ get_nearby_sightings [⟨0, 0, 0⟩] 0 0 0) ↔
        (⟨0, 0, 0⟩ : Sighting) ∈ [(⟨0, 0, 0⟩ : Sighting)] ∧
          haversine_distance 0 0 (⟨0, 0, 0⟩ : Sighting).latitude
            (⟨0, 0, 0⟩ : Sighting).longitude ≤ 0) :=
  ⟨le_refl 0, claim_C7 [⟨0, 0, 0⟩] 0 0 0 (le_refl 0) ⟨0, 0, 0⟩⟩

/-- C6 (amended).  The proximity query output is sorted non-decreasing in
the attached rounded `distance_km`, and entries with equal `distance_km`
keep their encounter order from the filtered list (stable sort).  It is not
in general sorted by the exact haversine distance (see the
counterexample). -/
theorem claim_C6 (cs : List Sighting) (qlat qlon r : ℝ) (x y : Sighting × ℝ)
    (hxy : x.2 = y.2) (hsub : List.Sublist [x, y] (nearbyAnnotated cs qlat qlon r)) :
    (get_nearby_sightings cs qlat qlon r).Pairwise (fun a b => a.2 ≤ b.2) ∧
      List.Sublist [x, y] (get_nearby_sightings cs qlat qlon r) :=
  ⟨get_nearby_pairwise cs qlat qlon r, get_nearby_stable cs qlat qlon r x y hxy hsub⟩

/-- Evaluation at the C6 witness input: two candidates at the query point
are annotated with rounded distance `0` in encounter order. -/
theorem annotatedPairAtOrigin :
    nearbyAnnotated [⟨1, 0, 0⟩, ⟨2, 0, 0⟩] 0 0 0 =
      [((⟨1, 0, 0⟩ : Sighting), (0 : ℝ)), ((⟨2, 0, 0⟩ : Sighting), 0)] := by
  have hle1 : haversine_distance 0 0 (Sighting.mk 1 0 0).latitude
      (Sighting.mk 1 0 0).longitude ≤ 0 := le_of_eq (haversine_self 0 0)
  have hle2 : haversine_distance 0 0 (Sighting.mk 2 0 0).latitude
      (Sighting.mk 2 0 0).longitude ≤ 0 := le_of_eq (haversine_self 0 0)
  rw [nearbyAnnotated_cons_pos (Sighting.mk 1 0 0) [Sighting.mk 2 0 0] 0 0 0 hle1,
    nearbyAnnotated_cons_pos (Sighting.mk 2 0 0) [] 0 0 0 hle2, nearbyAnnotated_nil]
  rw [show haversine_distance 0 0 (Sighting.mk 1 0 0).latitude
      (Sighting.mk 1 0 0).longitude = 0 from haversine_self 0 0, round2_zero]

/-- C6 witness: two equidistant candidates (both at the query point) are
kept in encounter order in the sorted output. -/
theorem witness_C6 :
    (((⟨1, 0, 0⟩ : Sighting), (0 : ℝ)).2 = ((⟨2, 0, 0⟩ : Sighting), (0 : ℝ)).2 ∧
      List.Sublist [((⟨1, 0, 0⟩ : Sighting), (0 : ℝ)), ((⟨2, 0, 0⟩ : Sighting), 0)]
        (nearbyAnnotated [⟨1, 0, 0⟩, ⟨2, 0, 0⟩] 0 0 0)) ∧
    ((get_nearby_sightings [(⟨1, 0, 0⟩ : Sighting), ⟨2, 0, 0⟩] 0 0 0).Pairwise
        (fun a b => a.2 ≤ b.2) ∧
      List.Sublist [((⟨1, 0, 0⟩ : Sighting), (0 : ℝ)), ((⟨2, 0, 0⟩ : Sighting), 0)]
        (get_nearby_sightings [⟨1, 0, 0⟩, ⟨2, 0, 0⟩] 0 0 0)) := by
  have hsub : List.Sublist [((⟨1, 0, 0⟩ : Sighting), (0 : ℝ)), ((⟨2, 0, 0⟩ : Sighting), 0)]
      (nearbyAnnotated [⟨1, 0, 0⟩, ⟨2, 0, 0⟩] 0 0 0) := by
    rw [annotatedPairAtOrigin]
  exact ⟨⟨rfl, hsub⟩, claim_C6 [⟨1, 0, 0⟩, ⟨2, 0, 0⟩] 0 0 0 _ _ rfl hsub⟩

/-- Longitude (in degrees) placing an equator point at haversine distance
exactly `0.0049` km from the origin. -/
noncomputable def cexLonA : ℝ := 0.882 / (6371 * Real.pi)

/-- Longitude (in degrees) placing an equator point at haversine distance
exactly `0.0041` km from the origin. -/
noncomputable def cexLonB : ℝ := 0.738 / (6371 * Real.pi)

/-- The equator longitudes used in the counterexamples lie in `[0, 1]`. -/
theorem cexLon_range (a : ℝ) (h0 : 0 ≤ a) (h1 : a ≤ 2) :
    0 ≤ a / (6371 * Real.pi) ∧ a / (6371 * Real.pi) ≤ 1 := by
  have hpi := Real.pi_gt_three
  constructor
  · positivity
  · rw [div_le_one (by positivity)]
    nlinarith

/-- Distance evaluation on the equator: the point at longitude
`a / (6371·π)` degrees is at haversine distance `a / 180` km. -/
theorem cexLon_dist (a : ℝ) (h0 : 0 ≤ a) (h1 : a ≤ 2) :
    haversine_distance 0 0 0 (a / (6371 * Real.pi)) = a / 180 := by
  have hpi := Real.pi_pos
  obtain ⟨hl0, hl1⟩ := cexLon_range a h0 h1
  rw [haversine_equator _ hl0 hl1]
  field_simp
  ring

/-- Distance evaluation for `cexLonA`. -/
theorem cexLonA_dist : haversine_distance 0 0 0 cexLonA = 0.0049 := by
  unfold cexLonA
  rw [cexLon_dist 0.882 (by norm_num) (by norm_num)]
  norm_num

/-- Distance evaluation for `cexLonB`. -/
theorem cexLonB_dist : haversine_distance 0 0 0 cexLonB = 0.0041 := by
  unfold cexLonB
  rw [cexLon_dist 0.738 (by norm_num) (by norm_num)]
  norm_num

/-- C6 counterexample: two candidates whose exact distances are `0.0049` km
and `0.0041` km both round to `distance_km = 0.0`; the stable sort keeps the
farther-listed-first encounter order, so the output is **not** sorted
ascending by exact distance from the origin. -/
theorem counterexample_C6 :
    get_nearby_sightings [⟨1, 0, cexLonA⟩, ⟨2, 0, cexLonB⟩] 0 0 1 =
      [((⟨1, 0, cexLonA⟩ : Sighting), (0 : ℝ)), ((⟨2, 0, cexLonB⟩ : Sighting), 0)] ∧
    haversine_distance 0 0 (⟨2, 0, cexLonB⟩ : Sighting).latitude
        (⟨2, 0, cexLonB⟩ : Sighting).longitude <
      haversine_distance 0 0 (⟨1, 0, cexLonA⟩ : Sighting).latitude
        (⟨1, 0, cexLonA⟩ : Sighting).longitude := by
  have hA : haversine_distance 0 0 (0 : ℝ) cexLonA = 0.0049 := cexLonA_dist
  have hB : haversine_distance 0 0 (0 : ℝ) cexLonB = 0.0041 := cexLonB_dist
  have hA1 : haversine_distance 0 0 (Sighting.mk 1 0 cexLonA).latitude
      (Sighting.mk 1 0 cexLonA).longitude ≤ 1 := le_trans (le_of_eq hA) (by norm_num)
  have hB1 : haversine_distance 0 0 (Sighting.mk 2 0 cexLonB).latitude
      (Sighting.mk 2 0 cexLonB).longitude ≤ 1 := le_trans (le_of_eq hB) (by norm_num)
  constructor
  · unfold get_nearby_sightings
    rw [nearbyAnnotated_cons_pos (Sighting.mk 1 0 cexLonA) [Sighting.mk 2 0 cexLonB] 0 0 1 hA1,
      nearbyAnnotated_cons_pos (Sighting.mk 2 0 cexLonB) [] 0 0 1 hB1,
      nearbyAnnotated_nil]
    rw [show haversine_distance 0 0 (Sighting.mk 1 0 cexLonA).latitude
        (Sighting.mk 1 0 cexLonA).longitude = 0.0049 from hA,
      show haversine_distance 0 0 (Sighting.mk 2 0 cexLonB).latitude
        (Sighting.mk 2 0 cexLonB).longitude = 0.0041 from hB]
    rw [round2_of_small 0.0049 (by norm_num) (by norm_num),
      round2_of_small 0.0041 (by norm_num) (by norm_num)]
    exact mergeSort_pair_sorted _ _ (le_refl 0)
  · rw [show haversine_distance 0 0 (Sighting.mk 2 0 cexLonB).latitude
        (Sighting.mk 2 0 cexLonB).longitude = 0.0041 from hB,
      show haversine_distance 0 0 (Sighting.mk 1 0 cexLonA).latitude
        (Sighting.mk 1 0 cexLonA).longitude = 0.0049 from hA]
    norm_num

/-- Longitude (in degrees) placing an equator point at haversine distance
exactly `0.004` km from the origin. -/
noncomputable def cexLonC : ℝ := 0.72 / (6371 * Real.pi)

/-- Longitude (in degrees) placing an equator point at haversine distance
exactly `0.006` km from the origin. -/
noncomputable def cexLonD : ℝ := 1.08 / (6371 * Real.pi)

/-- Distance evaluation for `cexLonC`. -/
theorem cexLonC_dist : haversine_distance 0 0 0 cexLonC = 0.004 := by
  unfold cexLonC
  rw [cexLon_dist 0.72 (by norm_num) (by norm_num)]
  norm_num

/-- Distance evaluation for `cexLonD`. -/
theorem cexLonD_dist : haversine_distance 0 0 0 cexLonD = 0.006 := by
  unfold cexLonD
  rw [cexLon_dist 1.08 (by norm_num) (by norm_num)]
  norm_num

/-- C9 (amended).  Every pair in the proximity query output carries
`distance_km` equal to the haversine distance rounded to two decimals, and
the output is sorted non-decreasing in that rounded value (two candidates
whose distances round to the same two-decimal value therefore carry equal
`distance_km`). -/
theorem claim_C9 (cs : List Sighting) (qlat qlon r : ℝ) (c : Sighting) (d : ℝ)
    (h : (c, d) ∈ get_nearby_sightings cs qlat qlon r) :
    d = round2 (haversine_distance qlat qlon c.latitude c.longitude) ∧
      (get_nearby_sightings cs qlat qlon r).Pairwise (fun a b => a.2 ≤ b.2) :=
  ⟨((mem_get_nearby cs qlat qlon r c d).1 h).2.2, get_nearby_pairwise cs qlat qlon r⟩

/-- C9 witness: the candidate at the query point is annotated with the
rounded distance `round2 0 = 0`. -/
theorem witness_C9 :
    ((⟨0, 0, 0⟩ : Sighting), (0 : ℝ)) ∈ get_nearby_sightings [⟨0, 0, 0⟩] 0 0 0 ∧
      ((0 : ℝ) = round2 (haversine_distance 0 0 (⟨0, 0, 0⟩ : Sighting).latitude
          (⟨0, 0, 0⟩ : Sighting).longitude) ∧
        (get_nearby_sightings [(⟨0, 0, 0⟩ : Sighting)] 0 0 0).Pairwise
          (fun a b => a.2 ≤ b.2)) := by
  have h0 : haversine_distance 0 0 (Sighting.mk 0 0 0).latitude
      (Sighting.mk 0 0 0).longitude = 0 := haversine_self 0 0
  have hmem : ((⟨0, 0, 0⟩ : Sighting), (0 : ℝ)) ∈ get_nearby_sightings [⟨0, 0, 0⟩] 0 0 0 := by
    rw [mem_get_nearby [⟨0, 0, 0⟩] 0 0 0 ⟨0, 0, 0⟩ 0]
    refine ⟨List.mem_singleton.2 rfl, le_of_eq h0, ?_⟩
    rw [h0, round2_zero]
  exact ⟨hmem, claim_C9 [⟨0, 0, 0⟩] 0 0 0 ⟨0, 0, 0⟩ 0 hmem⟩

/-- C9 counterexample: exact distances `0.004` km and `0.006` km differ by
less than `0.005` km, yet the attached `distance_km` values are `0.0` and
`0.01` — candidates within `0.005` km of each other need not carry equal
`distance_km`. -/
theorem counterexample_C9 :
    |haversine_distance 0 0 (⟨2, 0, cexLonD⟩ : Sighting).latitude
        (⟨2, 0, cexLonD⟩ : Sighting).longitude -
      haversine_distance 0 0 (⟨1, 0, cexLonC⟩ : Sighting).latitude
        (⟨1, 0, cexLonC⟩ : Sighting).longitude| < 0.005 ∧
    ((⟨1, 0, cexLonC⟩ : Sighting), (0 : ℝ)) ∈
      get_nearby_sightings [⟨1, 0, cexLonC⟩, ⟨2, 0, cexLonD⟩] 0 0 1 ∧
    ((⟨2, 0, cexLonD⟩ : Sighting), (1 / 100 : ℝ)) ∈
      get_nearby_sightings [⟨1, 0, cexLonC⟩, ⟨2, 0, cexLonD⟩] 0 0 1 ∧
    (0 : ℝ) ≠ 1 / 100 := by
  have hC : haversine_distance 0 0 (0 : ℝ) cexLonC = 0.004 := cexLonC_dist
  have hD : haversine_distance 0 0 (0 : ℝ) cexLonD = 0.006 := cexLonD_dist
  refine ⟨?_, ?_, ?_, by norm_num⟩
  · rw [show haversine_distance 0 0 (Sighting.mk 2 0 cexLonD).latitude
        (Sighting.mk 2 0 cexLonD).longitude = 0.006 from hD,
      show haversine_distance 0 0 (Sighting.mk 1 0 cexLonC).latitude
        (Sighting.mk 1 0 cexLonC).longitude = 0.004 from hC]
    rw [abs_of_nonneg (by norm_num)]
    norm_num
  · rw [mem_get_nearby [⟨1, 0, cexLonC⟩, ⟨2, 0, cexLonD⟩] 0 0 1 ⟨1, 0, cexLonC⟩ 0]
    refine ⟨List.mem_cons_self _ _, ?_, ?_⟩
    · exact le_trans (le_of_eq hC) (by norm_num)
    · rw [show haversine_distance 0 0 (Sighting.mk 1 0 cexLonC).latitude
          (Sighting.mk 1 0 cexLonC).longitude = 0.004 from hC,
        round2_of_small 0.004 (by norm_num) (by norm_num)]
  · rw [mem_get_nearby [⟨1, 0, cexLonC⟩, ⟨2, 0, cexLonD⟩] 0 0 1 ⟨2, 0, cexLonD⟩ (1 / 100)]
    refine ⟨List.mem_cons_of_mem _ (List.mem_cons_self _ _), ?_, ?_⟩
    · exact le_trans (le_of_eq hD) (by norm_num)
    · rw [show haversine_distance 0 0 (Sighting.mk 2 0 cexLonD).latitude
          (Sighting.mk 2 0 cexLonD).longitude = 0.006 from hD,
        round2_of_mid 0.006 (by norm_num) (by norm_num)]

end Server
